import Mathlib

/-!
Shallow embedding of `pubmed_fetcher` (files `pubmed_fetcher/core.py` and
`pubmed_fetcher/cli.py`) and verification of its specification.

Network calls are modelled by passing the remote endpoint response explicitly:
a response is either a request-level failure (the `requests.exceptions.
RequestException` class caught by the code) or a successful, already-parsed
payload.  Python exceptions that the code does not catch (`AttributeError`
from `None.text`, `IndexError` from `split(...)[1]`) are modelled by the
`Except` monad: an `Except.error` value is an exception propagating out of
the function and terminating the run.

String operations are given structurally recursive definitions that the
kernel can evaluate: `pyLower` models `str.lower`, `pyContains`
models the Python `in` substring test, `pySplit` models `str.split(sep)` for
a non-empty separator, and `pyStrip` models `str.strip()` (the code only
ever applies these to ASCII text, where these models agree with Python).
-/

/-- Python `str.lower`, character by character (ASCII case mapping). -/
def pyLower (s : String) : String := String.mk (s.data.map Char.toLower)

/-- Helper for the substring test: does `sub` occur in the character list? -/
def listContains (sub : List Char) : List Char → Bool
  | [] => sub.isEmpty
  | c :: t => sub.isPrefixOf (c :: t) || listContains sub t

/-- Python `sub in s` substring membership test. -/
def pyContains (s sub : String) : Bool := listContains sub.data s.data

/-- Fuel-indexed splitter on non-overlapping occurrences of `sep`,
scanning left to right; `acc` holds the current field reversed.  The fuel
passed by `pySplit` exceeds the length of the scanned list, so the
fuel-exhaustion branch is never reached for a non-empty separator. -/
def splitRun (sep : List Char) : Nat → List Char → List Char → List (List Char)
  | 0, s, acc => [acc.reverse ++ s]
  | fuel + 1, s, acc =>
    match s with
    | [] => [acc.reverse]
    | c :: t =>
      if sep.isPrefixOf (c :: t) then
        acc.reverse :: splitRun sep fuel ((c :: t).drop sep.length) []
      else
        splitRun sep fuel t (c :: acc)

/-- Python `s.split(sep)` for a non-empty separator. -/
def pySplit (s sep : String) : List String :=
  (splitRun sep.data (s.data.length + 1) s.data []).map String.mk

/-- Python `s.strip()`: drop leading and trailing whitespace. -/
def pyStrip (s : String) : String :=
  String.mk (((s.data.dropWhile Char.isWhitespace).reverse.dropWhile
    Char.isWhitespace).reverse)

/-- Heuristic keyword set of `fetch_paper_details` (core.py line 58). -/
def keywords : List String := ["pharmaceutical", "biotech", "company", "corporation"]

/-- Uncaught Python exceptions of `fetch_paper_details`: `AttributeError`
from `article.find(".//PMID").text` when the node is missing, and
`IndexError` from `affiliation_text.split("email:")[1]`. -/
inductive PyError where
  | attributeError
  | indexError
deriving DecidableEq

/-- One `Author` element of the fetched XML document, reduced to the two
nodes `fetch_paper_details` reads: the `LastName` child and the
`.//AffiliationInfo/Affiliation` descendant.  `none` means the node is
absent; `some t` means the node is present with text `t`. -/
structure Author where
  lastName : Option String
  affiliation : Option String
deriving DecidableEq

/-- One `PubmedArticle` element of the fetched XML document, reduced to the
nodes `fetch_paper_details` reads. -/
structure PubmedArticle where
  pmid : Option String
  articleTitle : Option String
  pubYear : Option String
  authors : List Author
deriving DecidableEq

/-- One output record of `fetch_paper_details` (the dict built at core.py
lines 67-74), with fields in the key order of the dict. -/
structure Paper where
  pubmedID : String
  title : String
  publicationDate : String
  nonAcademicAuthors : String
  companyAffiliations : String
  correspondingAuthorEmail : String
deriving DecidableEq

/-- The per-article mutable state of the author loop (core.py lines 50-52):
the two accumulating lists and the corresponding-email variable. -/
structure AuthorState where
  non_academic_authors : List String
  company_affiliations : List String
  corresponding_email : String
deriving DecidableEq

/-- Initial loop state: empty lists and `corresponding_email = "N/A"`
(core.py lines 50-52). -/
def initAuthorState : AuthorState := ⟨[], [], "N/A"⟩

/-- Keyword heuristic of the author loop (core.py lines 58-62): the lowered
affiliation text is tested against the keyword set; on a match the author
last name (when the `LastName` node is present) is appended to
`non_academic_authors` and the original-case affiliation text to
`company_affiliations`. -/
def applyKeywordHeuristic (st : AuthorState) (author : Author) (affText : String) : AuthorState :=
  if keywords.any (fun keyword => pyContains (pyLower affText) keyword) then
    { st with
        non_academic_authors :=
          match author.lastName with
          | some lastName => st.non_academic_authors ++ [lastName]
          | none => st.non_academic_authors,
        company_affiliations := st.company_affiliations ++ [affText] }
  else st

/-- Email heuristic of the author loop (core.py lines 64-65): when the
lowered affiliation text contains both "corresponding" and "email", the
lowered text is split on "email:" and element 1 of the result, stripped,
overwrites `corresponding_email`; if the split has no element 1 the Python
code raises `IndexError`. -/
def applyEmailHeuristic (st : AuthorState) (affText : String) : Except PyError AuthorState :=
  if pyContains (pyLower affText) "corresponding" && pyContains (pyLower affText) "email" then
    match (pySplit (pyLower affText) "email:").get? 1 with
    | some portion => .ok { st with corresponding_email := pyStrip portion }
    | none => .error .indexError
  else .ok st

/-- One iteration of the author loop (core.py lines 54-65): an author
without an affiliation node is skipped; otherwise the keyword heuristic
runs, then the email heuristic. -/
def processAuthor (st : AuthorState) (author : Author) : Except PyError AuthorState :=
  match author.affiliation with
  | none => .ok st
  | some affText =>
    applyEmailHeuristic (applyKeywordHeuristic st author affText) affText

/-- The whole author loop of one article, from the initial state. -/
def processAuthors (authors : List Author) : Except PyError AuthorState :=
  authors.foldlM processAuthor initAuthorState

/-- Extraction of one `PubmedArticle` into a `Paper` (core.py lines 44-74).
A missing `PMID` node raises `AttributeError` (`None.text`); a missing
`ArticleTitle` or `PubDate/Year` node yields "N/A"; the author loop runs,
and the two lists are joined with ", " (or "N/A" when empty). -/
def extractPaper (article : PubmedArticle) : Except PyError Paper :=
  match article.pmid with
  | none => .error .attributeError
  | some pubmed_id =>
    (processAuthors article.authors).map fun st =>
      { pubmedID := pubmed_id
        title := article.articleTitle.getD "N/A"
        publicationDate := article.pubYear.getD "N/A"
        nonAcademicAuthors :=
          if st.non_academic_authors.isEmpty then "N/A"
          else String.intercalate ", " st.non_academic_authors
        companyAffiliations :=
          if st.company_affiliations.isEmpty then "N/A"
          else String.intercalate ", " st.company_affiliations
        correspondingAuthorEmail := st.corresponding_email }

/-- Outcome of the search-endpoint request made by `fetch_paper_ids`:
either a `RequestException` carrying its message, or a well-formed JSON
envelope whose `esearchresult.idlist` is `idlist`. -/
inductive SearchResponse where
  | requestError (msg : String)
  | success (idlist : List String)
deriving DecidableEq

/-- Result of `fetch_paper_ids`: the lines printed and the returned list. -/
structure SearchResult where
  log : List String
  ids : List String
deriving DecidableEq

/-- Model of `fetch_paper_ids` (core.py lines 10-24): on a request failure
it prints the error and returns `[]`; on success it returns the envelope
id list.  `query` and `max_results` only shape the outgoing request, whose
outcome is the explicit `resp` argument. -/
def fetch_paper_ids (query : String) (max_results : Nat) (resp : SearchResponse) : SearchResult :=
  match query, max_results, resp with
  | _, _, .requestError e => ⟨["Error fetching paper IDs: " ++ e], []⟩
  | _, _, .success idlist => ⟨[], idlist⟩

/-- Outcome of the fetch-endpoint request made by `fetch_paper_details`:
either a `RequestException` carrying its message, or a parsed XML document
holding the listed `PubmedArticle` elements in document order. -/
inductive FetchResponse where
  | requestError (msg : String)
  | success (articles : List PubmedArticle)
deriving DecidableEq

deriving instance DecidableEq for Except

/-- Result of `fetch_paper_details`: whether a network request was sent,
the lines printed, and the returned value — `Except.error` models an
uncaught exception terminating the run. -/
structure FetchResult where
  requestMade : Bool
  log : List String
  result : Except PyError (List Paper)
deriving DecidableEq

/-- Model of `fetch_paper_details` (core.py lines 26-79): an empty id list
prints a notice and returns `[]` with no request sent; a request failure is
caught, printed, and turned into `[]`; on success each article is
extracted, any extraction exception propagating uncaught. -/
def fetch_paper_details (paper_ids : List String) (resp : FetchResponse) : FetchResult :=
  if paper_ids.isEmpty then ⟨false, ["No paper IDs provided."], .ok []⟩
  else
    match resp with
    | .requestError e => ⟨true, ["Error fetching paper details: " ++ e], .ok []⟩
    | .success articles => ⟨true, [], articles.mapM extractPaper⟩

/-- Column headers written by `save_to_csv`: the `DataFrame` columns are
the dict keys of the records, in insertion order (core.py lines 67-74). -/
def csvHeader : List String :=
  ["PubmedID", "Title", "Publication Date", "Non-academic Author(s)",
   "Company Affiliation(s)", "Corresponding Author Email"]

/-- One CSV data row: the fields of the record in column order. -/
def paperRow (p : Paper) : List String :=
  [p.pubmedID, p.title, p.publicationDate, p.nonAcademicAuthors,
   p.companyAffiliations, p.correspondingAuthorEmail]

/-- Result of `save_to_csv`: the rows written to the output file (`none`
when no file is created) and the lines printed. -/
structure CsvResult where
  file : Option (List (List String))
  log : List String
deriving DecidableEq

/-- Model of `save_to_csv` (core.py lines 81-88): a non-empty record list
is written as a header row plus one row per record (`to_csv` with
`index=False`); an empty list writes nothing and prints a notice. -/
def save_to_csv (papers : List Paper) (filename : String) : CsvResult :=
  if papers.isEmpty then ⟨none, ["No papers to save."]⟩
  else ⟨some (csvHeader :: papers.map paperRow), ["Results saved to " ++ filename]⟩

/-- Model of the pipeline body of `get_papers_list` (cli.py lines 19-20):
search, then detail fetch on the returned ids. -/
def get_papers_list (query : String) (sresp : SearchResponse) (fresp : FetchResponse) : FetchResult :=
  fetch_paper_details (fetch_paper_ids query 10 sresp).ids fresp

/-! ## Claim theorems -/

/-- C6 (confirmed): an author whose affiliation text is
"Biotech Corp, Corresponding, Email: jane@x.com" and whose last-name node
is present has the last name appended to the non-academic-author list, the
original-case affiliation text appended to the company-affiliation list,
and sets the corresponding-author email to "jane@x.com". -/
theorem c6_biotech_corp_author (st : AuthorState) (ln : String) :
    processAuthor st
      { lastName := some ln,
        affiliation := some "Biotech Corp, Corresponding, Email: jane@x.com" } =
    .ok ⟨st.non_academic_authors ++ [ln],
         st.company_affiliations ++ ["Biotech Corp, Corresponding, Email: jane@x.com"],
         "jane@x.com"⟩ := rfl

/-- C3 (confirmed): a request-level failure at the search endpoint or at
the fetch endpoint is logged and turned into an empty returned sequence;
no exception propagates (the results are `Except.ok`). -/
theorem c3_request_failure_logged_and_empty (query e : String) (max_results : Nat)
    (ids : List String) (hids : ids ≠ []) :
    fetch_paper_ids query max_results (.requestError e) =
      ⟨["Error fetching paper IDs: " ++ e], []⟩ ∧
    fetch_paper_details ids (.requestError e) =
      ⟨true, ["Error fetching paper details: " ++ e], .ok []⟩ := by
  refine ⟨rfl, ?_⟩
  cases ids with
  | nil => exact absurd rfl hids
  | cons a t => rfl

/-- Witness for C3 at a concrete failure message and id list. -/
theorem c3_witness :
    fetch_paper_ids "cancer" 10 (.requestError "connection refused") =
      ⟨["Error fetching paper IDs: connection refused"], []⟩ ∧
    fetch_paper_details ["1"] (.requestError "connection refused") =
      ⟨true, ["Error fetching paper details: connection refused"], .ok []⟩ :=
  c3_request_failure_logged_and_empty "cancer" "connection refused" 10 ["1"] (by decide)

/-- C5 (confirmed): when the identifier search returns zero identifiers,
the detail-fetch stage sends no request, prints the notice, and the final
record set is empty. -/
theorem c5_zero_ids_no_fetch (query : String) (sresp : SearchResponse)
    (fresp : FetchResponse) (h : (fetch_paper_ids query 10 sresp).ids = []) :
    get_papers_list query sresp fresp =
      ⟨false, ["No paper IDs provided."], .ok []⟩ := by
  unfold get_papers_list
  rw [h]
  rfl

/-- Witness for C5 at a search response with an empty id list. -/
theorem c5_witness :
    get_papers_list "cancer" (.success []) (.success []) =
      ⟨false, ["No paper IDs provided."], .ok []⟩ :=
  c5_zero_ids_no_fetch "cancer" (.success []) (.success []) rfl

/-- C7 (confirmed): an article whose `ArticleTitle` node is absent is
extracted (when extraction succeeds) with Title field "N/A". -/
theorem c7_missing_title (article : PubmedArticle) (r : Paper)
    (htitle : article.articleTitle = none)
    (hok : extractPaper article = .ok r) : r.title = "N/A" := by
  unfold extractPaper at hok
  cases hp : article.pmid with
  | none => rw [hp] at hok; cases hok
  | some pid =>
    rw [hp] at hok
    cases hps : processAuthors article.authors with
    | error e => rw [hps] at hok; cases hok
    | ok st =>
      rw [hps] at hok
      simp only [Except.map, Except.ok.injEq] at hok
      rw [← hok]
      simp [htitle]

/-- Witness for C7 at a one-article document with no title node. -/
theorem c7_witness :
    ({ pubmedID := "9", title := "N/A", publicationDate := "N/A",
       nonAcademicAuthors := "N/A", companyAffiliations := "N/A",
       correspondingAuthorEmail := "N/A" } : Paper).title = "N/A" :=
  c7_missing_title ⟨some "9", none, none, []⟩ _ rfl (by decide)

/-- C8 (confirmed): the sink writes no file and prints a notice on an
empty record list, and on a non-empty list writes the header row plus one
row per record. -/
theorem c8_sink_empty_vs_rows (papers : List Paper) (filename : String) :
    (papers = [] → save_to_csv papers filename = ⟨none, ["No papers to save."]⟩) ∧
    (papers ≠ [] →
      save_to_csv papers filename =
        ⟨some (csvHeader :: papers.map paperRow), ["Results saved to " ++ filename]⟩ ∧
      (csvHeader :: papers.map paperRow).length = papers.length + 1) := by
  constructor
  · intro h
    subst h
    rfl
  · intro h
    cases papers with
    | nil => exact absurd rfl h
    | cons p t => exact ⟨rfl, by simp⟩

/-- Witness for C8 at an empty list and at a one-record list. -/
theorem c8_witness :
    save_to_csv [] "out.csv" = ⟨none, ["No papers to save."]⟩ ∧
    (save_to_csv [⟨"1", "T", "2020", "N/A", "N/A", "N/A"⟩] "out.csv" =
      ⟨some (csvHeader :: ([⟨"1", "T", "2020", "N/A", "N/A", "N/A"⟩] : List Paper).map paperRow),
       ["Results saved to out.csv"]⟩ ∧
     (csvHeader :: ([⟨"1", "T", "2020", "N/A", "N/A", "N/A"⟩] : List Paper).map paperRow).length =
       ([⟨"1", "T", "2020", "N/A", "N/A", "N/A"⟩] : List Paper).length + 1) :=
  ⟨(c8_sink_empty_vs_rows [] "out.csv").1 rfl,
   (c8_sink_empty_vs_rows [⟨"1", "T", "2020", "N/A", "N/A", "N/A"⟩] "out.csv").2 (by decide)⟩

/-- C9 (confirmed): an affiliation whose lowered text contains both
"corresponding" and "email" but not "email:" makes the author loop raise
an uncaught `IndexError` from `split("email:")[1]`, so `fetch_paper_details`
terminates with that exception instead of returning a record sequence. -/
theorem c9_email_colon_missing_raises :
    pyContains (pyLower "Corresponding author, e-mail withheld, University Email Office")
      "corresponding" = true ∧
    pyContains (pyLower "Corresponding author, e-mail withheld, University Email Office")
      "email" = true ∧
    pyContains (pyLower "Corresponding author, e-mail withheld, University Email Office")
      "email:" = false ∧
    (fetch_paper_details ["11"]
      (.success
        [{ pmid := some "11", articleTitle := some "T", pubYear := some "2020",
           authors :=
             [{ lastName := some "Roe",
                affiliation :=
                  some "Corresponding author, e-mail withheld, University Email Office" }] }])).result =
      .error .indexError := by decide

/-- C1 counterexample: an affiliation containing no heuristic keyword but
containing "corresponding" and "email:" leaves both lists empty yet
overwrites the corresponding-email field, contradicting the claim that
such an author leaves the field unchanged. -/
theorem c1_counterexample :
    (keywords.all fun k =>
      ! pyContains (pyLower "University Dept, Corresponding author, email: a@b.edu") k) = true ∧
    processAuthor initAuthorState
      { lastName := none,
        affiliation := some "University Dept, Corresponding author, email: a@b.edu" } =
      .ok ⟨[], [], "a@b.edu"⟩ ∧
    ("a@b.edu" : String) ≠ initAuthorState.corresponding_email := by decide

/-- C2 counterexample: a record in which no author sets the corresponding
email carries the default "N/A", not "not available" as the claim states. -/
theorem c2_counterexample :
    fetch_paper_details ["1"]
      (.success [{ pmid := some "1", articleTitle := none, pubYear := none, authors := [] }]) =
      ⟨true, [], .ok [⟨"1", "N/A", "N/A", "N/A", "N/A", "N/A"⟩]⟩ ∧
    ("N/A" : String) ≠ "not available" := by decide

/-- Helper: the keyword heuristic never touches the email variable. -/
theorem applyKeywordHeuristic_email (st : AuthorState) (a : Author) (t : String) :
    (applyKeywordHeuristic st a t).corresponding_email = st.corresponding_email := by
  unfold applyKeywordHeuristic
  split <;> rfl

/-- Helper: the keyword heuristic preserves "non-academic list no longer
than company list": it appends one company entry and at most one name. -/
theorem applyKeywordHeuristic_length_le (st : AuthorState) (a : Author) (t : String)
    (hle : st.non_academic_authors.length ≤ st.company_affiliations.length) :
    (applyKeywordHeuristic st a t).non_academic_authors.length ≤
      (applyKeywordHeuristic st a t).company_affiliations.length := by
  unfold applyKeywordHeuristic
  split
  · split <;> simp [List.length_append] <;> omega
  · exact hle

/-- Helper: a normal return of the email heuristic never touches the two
lists. -/
theorem applyEmailHeuristic_ok_lists (st st2 : AuthorState) (t : String)
    (h : applyEmailHeuristic st t = .ok st2) :
    st2.non_academic_authors = st.non_academic_authors ∧
    st2.company_affiliations = st.company_affiliations := by
  unfold applyEmailHeuristic at h
  split at h
  · split at h
    · injection h with h
      subst h
      exact ⟨rfl, rfl⟩
    · cases h
  · injection h with h
    subst h
    exact ⟨rfl, rfl⟩

/-- Helper: when the lowered text does not contain both "corresponding"
and "email", the email heuristic returns the state unchanged. -/
theorem applyEmailHeuristic_not_triggered (st : AuthorState) (t : String)
    (h : (pyContains (pyLower t) "corresponding" && pyContains (pyLower t) "email") = false) :
    applyEmailHeuristic st t = .ok st := by
  unfold applyEmailHeuristic
  simp [h]

/-- C1 (corrected): an author whose affiliation text contains no heuristic
keyword appends nothing to either list on a normal return; the email field
is additionally unchanged whenever the lowered text does not contain both
"corresponding" and "email" (the counterexample shows that the original
unconditional "email unchanged" reading is false). -/
theorem c1_no_keyword_no_append (st : AuthorState) (a : Author) (t : String)
    (haff : a.affiliation = some t)
    (hkw : ∀ k ∈ keywords, pyContains (pyLower t) k = false) :
    (∀ st2, processAuthor st a = .ok st2 →
        st2.non_academic_authors = st.non_academic_authors ∧
        st2.company_affiliations = st.company_affiliations) ∧
    ((pyContains (pyLower t) "corresponding" && pyContains (pyLower t) "email") = false →
      processAuthor st a = .ok st) := by
  have hany : (keywords.any fun keyword => pyContains (pyLower t) keyword) = false := by
    simp only [List.any_eq_false]
    intro k hk
    simp [hkw k hk]
  have hkh : applyKeywordHeuristic st a t = st := by
    unfold applyKeywordHeuristic
    simp [hany]
  have hpa : processAuthor st a = applyEmailHeuristic st t := by
    unfold processAuthor
    rw [haff]
    show applyEmailHeuristic (applyKeywordHeuristic st a t) t = applyEmailHeuristic st t
    rw [hkh]
  constructor
  · intro st2 h
    rw [hpa] at h
    exact applyEmailHeuristic_ok_lists st st2 t h
  · intro hce
    rw [hpa]
    exact applyEmailHeuristic_not_triggered st t hce

/-- Witness for C1 at an academic affiliation with no keyword and no
email marker. -/
theorem c1_witness :
    processAuthor initAuthorState
      { lastName := some "Smith", affiliation := some "University of Oslo" } =
    .ok initAuthorState :=
  (c1_no_keyword_no_append initAuthorState
    { lastName := some "Smith", affiliation := some "University of Oslo" }
    "University of Oslo" rfl (by decide)).2 (by decide)

/-- Helper: an author that never triggers the email heuristic returns
normally and leaves the email variable unchanged. -/
theorem processAuthor_email_preserved (st : AuthorState) (a : Author)
    (h : ∀ t, a.affiliation = some t →
      (pyContains (pyLower t) "corresponding" && pyContains (pyLower t) "email") = false) :
    ∃ st2, processAuthor st a = .ok st2 ∧
      st2.corresponding_email = st.corresponding_email := by
  unfold processAuthor
  cases haff : a.affiliation with
  | none => exact ⟨st, rfl, rfl⟩
  | some t =>
    exact ⟨applyKeywordHeuristic st a t,
      applyEmailHeuristic_not_triggered _ t (h t haff),
      applyKeywordHeuristic_email st a t⟩

/-- Helper: the author loop leaves the email variable at its initial value
when no author triggers the email heuristic. -/
theorem foldlM_email_preserved (authors : List Author) :
    ∀ st, (∀ a ∈ authors, ∀ t, a.affiliation = some t →
        (pyContains (pyLower t) "corresponding" && pyContains (pyLower t) "email") = false) →
      ∃ st2, authors.foldlM processAuthor st = .ok st2 ∧
        st2.corresponding_email = st.corresponding_email := by
  induction authors with
  | nil => exact fun st _ => ⟨st, rfl, rfl⟩
  | cons a rest ih =>
    intro st h
    obtain ⟨mid, hmid, he1⟩ := processAuthor_email_preserved st a (h a (List.mem_cons_self a rest))
    obtain ⟨fin, hfin, he2⟩ := ih mid (fun b hb => h b (List.mem_cons_of_mem a hb))
    refine ⟨fin, ?_, he2.trans he1⟩
    rw [List.foldlM_cons, hmid]
    exact hfin

/-- C2 (corrected): a record none of whose authors triggers the email
heuristic is produced with corresponding-author email equal to the default
"N/A" (the counterexample shows the claimed default "not available" is
false). -/
theorem c2_default_email (article : PubmedArticle) (pid : String)
    (hpmid : article.pmid = some pid)
    (h : ∀ a ∈ article.authors, ∀ t, a.affiliation = some t →
        (pyContains (pyLower t) "corresponding" && pyContains (pyLower t) "email") = false) :
    ∃ r, extractPaper article = .ok r ∧ r.correspondingAuthorEmail = "N/A" := by
  obtain ⟨st, hst, he⟩ := foldlM_email_preserved article.authors initAuthorState h
  have hst2 : processAuthors article.authors = .ok st := hst
  have hext : extractPaper article = .ok
      { pubmedID := pid,
        title := article.articleTitle.getD "N/A",
        publicationDate := article.pubYear.getD "N/A",
        nonAcademicAuthors :=
          if st.non_academic_authors.isEmpty then "N/A"
          else String.intercalate ", " st.non_academic_authors,
        companyAffiliations :=
          if st.company_affiliations.isEmpty then "N/A"
          else String.intercalate ", " st.company_affiliations,
        correspondingAuthorEmail := st.corresponding_email } := by
    unfold extractPaper
    rw [hpmid]
    simp only [hst2, Except.map]
  exact ⟨_, hext, he⟩

/-- Witness for C2 at an article with one keyword-matching author that
never triggers the email heuristic. -/
theorem c2_witness :
    ∃ r, extractPaper
        { pmid := some "7", articleTitle := some "T", pubYear := some "2021",
          authors := [{ lastName := some "Doe", affiliation := some "Biotech Corp" }] } =
        .ok r ∧
      r.correspondingAuthorEmail = "N/A" :=
  c2_default_email _ "7" rfl (by
    intro a ha t ht
    simp only [List.mem_singleton] at ha
    subst ha
    injection ht with ht
    subst ht
    decide)

/-- Helper: extraction of a document fails whenever the extraction of one
of its articles fails. -/
theorem mapM_extractPaper_error (doc : List PubmedArticle) (article : PubmedArticle)
    (err : PyError) (hmem : article ∈ doc) (herr : extractPaper article = .error err) :
    ∃ e, doc.mapM extractPaper = .error e := by
  induction doc with
  | nil => cases hmem
  | cons b rest ih =>
    rw [List.mapM_cons]
    cases hb : extractPaper b with
    | error e => exact ⟨e, rfl⟩
    | ok p =>
      rcases List.mem_cons.mp hmem with rfl | h2
      · rw [hb] at herr
        cases herr
      · obtain ⟨e, he⟩ := ih h2
        refine ⟨e, ?_⟩
        show (rest.mapM extractPaper >>= fun xs => pure (p :: xs)) = .error e
        rw [he]
        rfl

/-- C4 (confirmed): a fetched document containing an article with no
`PMID` node makes `fetch_paper_details` terminate with an uncaught
exception instead of returning a (possibly empty or truncated) sequence. -/
theorem c4_missing_pmid_raises (ids : List String) (doc : List PubmedArticle)
    (article : PubmedArticle) (hids : ids ≠ []) (hmem : article ∈ doc)
    (hpmid : article.pmid = none) :
    ∃ e, (fetch_paper_details ids (.success doc)).result = .error e := by
  have herr : extractPaper article = .error .attributeError := by
    unfold extractPaper
    rw [hpmid]
  obtain ⟨e, he⟩ := mapM_extractPaper_error doc article .attributeError hmem herr
  refine ⟨e, ?_⟩
  cases ids with
  | nil => exact absurd rfl hids
  | cons a t => exact he

/-- Witness for C4 at a one-article document whose article lacks a PMID. -/
theorem c4_witness :
    ∃ e, (fetch_paper_details ["1"]
      (.success [{ pmid := none, articleTitle := none, pubYear := none, authors := [] }])).result =
      .error e :=
  c4_missing_pmid_raises ["1"]
    [{ pmid := none, articleTitle := none, pubYear := none, authors := [] }]
    { pmid := none, articleTitle := none, pubYear := none, authors := [] }
    (by decide) (by decide) rfl

/-- Helper: one author-loop step that returns normally preserves the
invariant that the non-academic list is no longer than the company list. -/
theorem processAuthor_length_le (st st2 : AuthorState) (a : Author)
    (h : processAuthor st a = .ok st2)
    (hle : st.non_academic_authors.length ≤ st.company_affiliations.length) :
    st2.non_academic_authors.length ≤ st2.company_affiliations.length := by
  unfold processAuthor at h
  cases haff : a.affiliation with
  | none =>
    rw [haff] at h
    injection h with h
    subst h
    exact hle
  | some t =>
    rw [haff] at h
    have h2 : applyEmailHeuristic (applyKeywordHeuristic st a t) t = .ok st2 := h
    obtain ⟨h3, h4⟩ := applyEmailHeuristic_ok_lists _ st2 t h2
    rw [h3, h4]
    exact applyKeywordHeuristic_length_le st a t hle

/-- Helper: the author loop preserves the length invariant from any
starting state. -/
theorem foldlM_length_le (authors : List Author) :
    ∀ st st2, authors.foldlM processAuthor st = .ok st2 →
      st.non_academic_authors.length ≤ st.company_affiliations.length →
      st2.non_academic_authors.length ≤ st2.company_affiliations.length := by
  induction authors with
  | nil =>
    intro st st2 h hle
    have h2 : (Except.ok st : Except PyError AuthorState) = .ok st2 := h
    injection h2 with h2
    subst h2
    exact hle
  | cons a rest ih =>
    intro st st2 h hle
    rw [List.foldlM_cons] at h
    cases hstep : processAuthor st a with
    | error e =>
      rw [hstep] at h
      cases h
    | ok mid =>
      rw [hstep] at h
      exact ih mid st2 h (processAuthor_length_le st mid a hstep hle)

/-- C10 (confirmed): whenever the author loop of an article completes
normally, the company-affiliation list is at least as long as the
non-academic-author list, since a keyword match always appends one
affiliation but appends a name only when the `LastName` node is present. -/
theorem c10_company_list_at_least_authors (authors : List Author) (st : AuthorState)
    (h : processAuthors authors = .ok st) :
    st.non_academic_authors.length ≤ st.company_affiliations.length :=
  foldlM_length_le authors initAuthorState st h (Nat.le_refl 0)

/-- Witness for C10 at a one-author list whose author matches a keyword
but has no last-name node. -/
theorem c10_witness :
    (⟨[], ["Biotech Inc"], "N/A"⟩ : AuthorState).non_academic_authors.length ≤
    (⟨[], ["Biotech Inc"], "N/A"⟩ : AuthorState).company_affiliations.length :=
  c10_company_list_at_least_authors
    [{ lastName := none, affiliation := some "Biotech Inc" }]
    ⟨[], ["Biotech Inc"], "N/A"⟩ (by decide)
